import Mathlib

/-!
# sshmon-check-postgres: the check sequence of `main.go`

A shallow embedding of `src/main.go`.  The program is a straight-line sequence of
calls into the outside world (DNS exchange, file read, `sql.Open`, three
`QueryRow(...).Scan(...)` calls) followed by one `fmt.Printf` and `os.Exit`.

* The outside world is a record `World` of response functions; every function
  receives the arguments the program passes.
* The program threads a `State` holding the external calls made so far, the
  `fmt.Printf` outputs so far, and the stack of deferred calls.
* `main` returns how the goroutine stopped (`os.Exit`, return, panic) and the
  state; `exec` applies the Go runtime rules for process termination to it.
* Go strings are Lean strings, Go `int` values are `Int` (no arithmetic is done
  on them), `%s` is concatenation, `%d` is the decimal rendering, and an `error`
  is the text of its `Error()` method.
-/

namespace CheckPostgres

/-! ## Data model -/

/-- Values of the flag variables after `flag.Parse()` (main.go, lines 32-45). -/
structure Flags where
  flagVersion : Bool
  flagService : String
  flagHost : String
  flagPort : Int
  flagDatabase : String
  flagUser : String
  flagPassword : String
  flagPasswordFile : String
  flagDNS : String
  flagConnTimeout : Int
  flagMaxLockAge : Int
  flagMaxQueryDuration : Int

/-- A resource record of a DNS answer section, as far as `resolveDNS` looks at it:
either a `*dns.A` (with the text `A.String()` of its address) or a record of another
concrete type (named by `rrtype`, e.g. `CNAME`). -/
inductive RR where
  | A (addr : String)
  | other (rrtype : String)
  deriving DecidableEq, Repr

/-- The handle returned by `sql.Open(driverName, dataSourceName)`. -/
structure DB where
  driverName : String
  dataSourceName : String
  deriving DecidableEq, Repr

/-- The outside world: build-time variables and the answers of every external call. -/
structure World where
  ProjectName : String
  BuildVersion : String
  BuildDate : String
  /-- The function `c.Exchange(&m, server)` for the question `(qname, TypeA)`: error or answer section. -/
  exchange : String → String → Except String (List RR)
  /-- The function `ioutil.ReadFile(path)`. -/
  readFile : String → Except String String
  /-- The function `sql.Open(driverName, dataSourceName)`. -/
  sqlOpen : String → String → Except String Unit
  /-- The call `db.QueryRow(query, args...).Scan(&value)` with `value` a `string`. -/
  queryRowString : DB → String → List String → Except String String
  /-- The call `db.QueryRow(query, args...).Scan(&count)` with `count` an `int`. -/
  queryRowInt : DB → String → List String → Except String Int

/-- External calls, recorded in the order in which they are executed. -/
inductive Call where
  | dnsExchange (qname server : String)
  | readFile (path : String)
  | sqlOpen (driverName dataSourceName : String)
  | queryRow (db : DB) (query : String) (args : List String)
  | dbClose (db : DB)
  deriving DecidableEq, Repr

/-- Program state: calls made, `fmt.Printf` outputs, deferred calls (latest first). -/
structure State where
  calls : List Call
  stdout : List String
  deferred : List Call
  deriving DecidableEq, Repr

def State.init : State := ⟨[], [], []⟩

def State.call (s : State) (c : Call) : State :=
  ⟨s.calls ++ [c], s.stdout, s.deferred⟩

def State.printf (s : State) (out : String) : State :=
  ⟨s.calls, s.stdout ++ [out], s.deferred⟩

def State.defer (s : State) (c : Call) : State :=
  ⟨s.calls, s.stdout, c :: s.deferred⟩

/-- Result of a function that may return a value, return an error, or panic. -/
inductive Res (α : Type) where
  | ok (v : α)
  | err (e : String)
  | panic (msg : String)
  deriving DecidableEq, Repr

/-- How the main goroutine stops. -/
inductive Term where
  | exit (code : Int)
  | ret
  | panic (msg : String)
  deriving DecidableEq, Repr

/-- What an observer of the process sees. -/
structure Process where
  calls : List Call
  stdout : List String
  exitCode : Int
  deriving DecidableEq, Repr

/-! ## The program -/

/-- The variable `statusMap` (lines 25-30). -/
def statusMap : List String := ["OK", "WARN", "CRIT", "UNKNOWN"]

/-- The verb `%d` applied to an `int`. -/
def fmtD (n : Int) : String := toString n

/-- Query text of `checkConnection` (lines 94-95). -/
def sqlTest : String := "\n\t\tSELECT 'test' AS value"

/-- Query text of `checkLocks` (lines 111-118). -/
def sqlLocks : String :=
  "\n\t\tSELECT\n\t\t\tCOUNT(*)\n\t\tFROM pg_catalog.pg_locks blockedl\n\t\tINNER JOIN pg_stat_activity blockeda\n\t\t\tON blockedl.pid = blockeda.pid\n\t\tWHERE\n\t\t\t(now() - blockeda.query_start) > $1"

/-- Query text of `checkQueries` (lines 131-136). -/
def sqlQueries : String :=
  "\n\t\tSELECT\n\t\t\tCOUNT(*) as count\n\t\tFROM pg_stat_activity\n\t\tWHERE\n\t\t\t(now() - pg_stat_activity.query_start) > $1"

/-- The function `resolveDNS` (lines 71-89).  The unchecked type assertion
`r.Answer[0].(*dns.A)` panics when the first answer is not a `*dns.A`. -/
def resolveDNS (f : Flags) (w : World) (host : String) (s : State) : Res String × State :=
  let s := s.call (Call.dnsExchange (host ++ ".") f.flagDNS)
  match w.exchange (host ++ ".") f.flagDNS with
  | .error err =>
    (.err ("Can't resolve '" ++ host ++ "' on " ++ f.flagDNS ++ ": " ++ err), s)
  | .ok [] =>
    (.err ("Can't resolve '" ++ host ++ "' on " ++ f.flagDNS ++ ": No results"), s)
  | .ok (RR.A addr :: _) => (.ok addr, s)
  | .ok (RR.other rrtype :: _) =>
    (.panic ("interface conversion: dns.RR is *dns." ++ rrtype ++ ", not *dns.A"), s)

/-- The function `checkConnection` (lines 91-106). -/
def checkConnection (w : World) (db : DB) (s : State) : Except String Unit × State :=
  let s := s.call (Call.queryRow db sqlTest [])
  match w.queryRowString db sqlTest [] with
  | .error err => (.error err, s)
  | .ok value =>
    if value ≠ "test" then
      (.error ("Postgres is crazy (returned '" ++ value ++ "' instead of 'test')"), s)
    else
      (.ok (), s)

/-- The function `checkLocks` (lines 108-126). -/
def checkLocks (w : World) (db : DB) (maxLockAge : Int) (s : State) : Except String Int × State :=
  let s := s.call (Call.queryRow db sqlLocks [fmtD maxLockAge ++ " seconds"])
  match w.queryRowInt db sqlLocks [fmtD maxLockAge ++ " seconds"] with
  | .error err => (.error err, s)
  | .ok countExceeded => (.ok countExceeded, s)

/-- The function `checkQueries` (lines 128-144). -/
def checkQueries (w : World) (db : DB) (maxDuration : Int) (s : State) : Except String Int × State :=
  let s := s.call (Call.queryRow db sqlQueries [fmtD maxDuration ++ " seconds"])
  match w.queryRowInt db sqlQueries [fmtD maxDuration ++ " seconds"] with
  | .error err => (.error err, s)
  | .ok countExceeded => (.ok countExceeded, s)

/-- The value of `serviceName` (lines 163-166). -/
def serviceName (f : Flags) : String :=
  if f.flagService = "" then "Postgres_" ++ f.flagHost else f.flagService

/-- The value of `connStr` (lines 209-217). -/
def connStr (f : Flags) (host password : String) : String :=
  "host=" ++ host ++ " port=" ++ fmtD f.flagPort ++ " dbname=" ++ f.flagDatabase ++
    " user=" ++ f.flagUser ++ " password=" ++ password ++
    " connect_timeout=" ++ fmtD f.flagConnTimeout

/-- Output of the `Printf` of lines 173-180. -/
def fmtResolveError (serviceName flagHost flagDNS err : String) : String :=
  "2 " ++ serviceName ++ " - " ++ statusMap[2] ++ " - " ++
    ("Error resolving ip of " ++ flagHost ++ " via dns " ++ flagDNS ++ ": " ++ err) ++ "\n"

/-- Output of the `Printf` of lines 193-199. -/
def fmtPasswordFileError (serviceName flagPasswordFile err : String) : String :=
  "2 " ++ serviceName ++ " - " ++ statusMap[2] ++ " - " ++
    ("Error reading password file " ++ flagPasswordFile ++ ": " ++ err) ++ "\n"

/-- Output of the `Printf` of lines 221-230. -/
def fmtConnectError (serviceName flagDatabase host : String) (flagPort : Int)
    (flagUser err : String) : String :=
  "2 " ++ serviceName ++ " - " ++ statusMap[2] ++ " - " ++
    ("Error connecting to postgres database '" ++ flagDatabase ++ "' on " ++ host ++ ":" ++
      fmtD flagPort ++ " using user '" ++ flagUser ++ "': " ++ err) ++ "\n"

/-- Output of the `Printf` of lines 240-248. -/
def fmtTestError (serviceName flagDatabase host : String) (flagPort : Int) (err : String) : String :=
  "2 " ++ serviceName ++ " - " ++ statusMap[2] ++ " - " ++
    ("Error testing connection on database '" ++ flagDatabase ++ "' on " ++ host ++ ":" ++
      fmtD flagPort ++ ": " ++ err) ++ "\n"

/-- Output of the `Printf` of lines 258-266. -/
def fmtLocksError (serviceName flagDatabase host : String) (flagPort : Int) (err : String) : String :=
  "2 " ++ serviceName ++ " - " ++ statusMap[2] ++ " - " ++
    ("Error loading active locks for database '" ++ flagDatabase ++ "' on " ++ host ++ ":" ++
      fmtD flagPort ++ ": " ++ err) ++ "\n"

/-- Output of the `Printf` of lines 274-283. -/
def fmtLocksWarn (serviceName : String) (countExceeded : Int) (flagDatabase host : String)
    (flagPort flagMaxLockAge : Int) : String :=
  "1 " ++ serviceName ++ " - " ++ statusMap[1] ++ " - " ++
    (fmtD countExceeded ++ " locks on database '" ++ flagDatabase ++ "' on " ++ host ++ ":" ++
      fmtD flagPort ++ " have exceeded the max age of " ++ fmtD flagMaxLockAge ++ " seconds") ++ "\n"

/-- Output of the `Printf` of lines 294-302. -/
def fmtQueriesError (serviceName flagDatabase host : String) (flagPort : Int) (err : String) :
    String :=
  "2 " ++ serviceName ++ " - " ++ statusMap[2] ++ " - " ++
    ("Error loading long runnign queries for database '" ++ flagDatabase ++ "' on " ++ host ++
      ":" ++ fmtD flagPort ++ ": " ++ err) ++ "\n"

/-- Output of the `Printf` of lines 310-319. -/
def fmtQueriesWarn (serviceName : String) (countExceeded : Int) (flagDatabase host : String)
    (flagPort flagMaxQueryDuration : Int) : String :=
  "1 " ++ serviceName ++ " - " ++ statusMap[1] ++ " - " ++
    (fmtD countExceeded ++ " queries on database '" ++ flagDatabase ++ "' on " ++ host ++ ":" ++
      fmtD flagPort ++ " have exceeded the max duration of " ++ fmtD flagMaxQueryDuration ++
      " seconds") ++ "\n"

/-- Output of the `Printf` of lines 327-334. -/
def fmtOK (serviceName flagDatabase host : String) (flagPort : Int) : String :=
  "0 " ++ serviceName ++ " - " ++ statusMap[0] ++ " - " ++
    ("Postgres database '" ++ flagDatabase ++ "' on " ++ host ++ ":" ++ fmtD flagPort ++
      " is up and running") ++ "\n"

/-- The function `main` (lines 146-337), after `flag.Parse()` has succeeded.  Every path
ends in `os.Exit` (the `return` after it is never reached) or in the panic of `resolveDNS`. -/
def main (f : Flags) (w : World) : Term × State :=
  let s := State.init
  -- lines 151-161
  if f.flagVersion then
    let s := s.printf (w.ProjectName ++ " " ++ w.BuildVersion ++ " (Build " ++ w.BuildDate ++ ")\n")
    let s := s.printf "\n"
    let s := s.printf "https://github.com/indece-official/sshmon-check-postgres\n"
    let s := s.printf "\n"
    let s := s.printf "Copyright 2020 by indece UG (haftungsbeschränkt)\n"
    (.exit 0, s)
  else
  -- lines 163-166
  let serviceName := serviceName f
  -- lines 168-186
  match (if f.flagDNS ≠ "" then resolveDNS f w f.flagHost s else (.ok f.flagHost, s)) with
  | (.panic msg, s) => (.panic msg, s)
  | (.err err, s) =>
    (.exit 0, s.printf (fmtResolveError serviceName f.flagHost f.flagDNS err))
  | (.ok host, s) =>
  -- lines 188-207
  match (if f.flagPasswordFile ≠ "" then
      (w.readFile f.flagPasswordFile, s.call (Call.readFile f.flagPasswordFile))
    else (.ok f.flagPassword, s)) with
  | (.error err, s) =>
    (.exit 1, s.printf (fmtPasswordFileError serviceName f.flagPasswordFile err))
  | (.ok password, s) =>
  -- lines 209-236
  let connStr := connStr f host password
  let s := s.call (Call.sqlOpen "postgres" connStr)
  match w.sqlOpen "postgres" connStr with
  | .error err =>
    (.exit 0, s.printf (fmtConnectError serviceName f.flagDatabase host f.flagPort f.flagUser err))
  | .ok () =>
  let db : DB := ⟨"postgres", connStr⟩
  let s := s.defer (Call.dbClose db)
  -- lines 238-253
  match checkConnection w db s with
  | (.error err, s) =>
    (.exit 0, s.printf (fmtTestError serviceName f.flagDatabase host f.flagPort err))
  | (.ok (), s) =>
  -- lines 255-289
  match (if f.flagMaxLockAge > 0 then
      (match checkLocks w db f.flagMaxLockAge s with
        | (.error err, s) =>
          (some (Term.exit 0),
            s.printf (fmtLocksError serviceName f.flagDatabase host f.flagPort err))
        | (.ok countExceeded, s) =>
          if countExceeded > 0 then
            (some (Term.exit 0),
              s.printf (fmtLocksWarn serviceName countExceeded f.flagDatabase host f.flagPort
                f.flagMaxLockAge))
          else (none, s))
    else (none, s)) with
  | (some t, s) => (t, s)
  | (none, s) =>
  -- lines 291-325
  match (if f.flagMaxQueryDuration > 0 then
      (match checkQueries w db f.flagMaxQueryDuration s with
        | (.error err, s) =>
          (some (Term.exit 0),
            s.printf (fmtQueriesError serviceName f.flagDatabase host f.flagPort err))
        | (.ok countExceeded, s) =>
          if countExceeded > 0 then
            (some (Term.exit 0),
              s.printf (fmtQueriesWarn serviceName countExceeded f.flagDatabase host f.flagPort
                f.flagMaxQueryDuration))
          else (none, s))
    else (none, s)) with
  | (some t, s) => (t, s)
  | (none, s) =>
  -- lines 327-336
  (.exit 0, s.printf (fmtOK serviceName f.flagDatabase host f.flagPort))

/-- Process termination in Go.  `os.Exit(code)` ends the process at once: deferred
functions are not run.  A return from `main` runs the deferred calls (latest first) and
exits with status 0; an unrecovered panic runs them and exits with status 2. -/
def terminate (r : Term × State) : Process :=
  match r with
  | (.exit code, s) => ⟨s.calls, s.stdout, code⟩
  | (.ret, s) => ⟨s.calls ++ s.deferred, s.stdout, 0⟩
  | (.panic _, s) => ⟨s.calls ++ s.deferred, s.stdout, 2⟩

/-- One run of the program. -/
def exec (f : Flags) (w : World) : Process := terminate (main f w)

/-! ## Vocabulary for stating the properties -/

/-- The run gets past the DNS step (lines 168-186) with `host` as the connection host:
either `-dns` is empty and `host` is the `-host` value, or the exchange answered and the
first answer is an A record whose address text is `host`. -/
def ResolvedHost (f : Flags) (w : World) (host : String) : Prop :=
  (f.flagDNS = "" ∧ host = f.flagHost) ∨
  (f.flagDNS ≠ "" ∧ ∃ rest, w.exchange (f.flagHost ++ ".") f.flagDNS = .ok (RR.A host :: rest))

/-- The run gets past the password step (lines 188-207) with `password`: either
`-passwordfile` is empty and `password` is the `-password` value, or the file was read and
`password` is its content. -/
def LoadedPassword (f : Flags) (w : World) (password : String) : Prop :=
  (f.flagPasswordFile = "" ∧ password = f.flagPassword) ∨
  (f.flagPasswordFile ≠ "" ∧ w.readFile f.flagPasswordFile = .ok password)

/-- The connection opens: `-v` is unset, the run reaches `sql.Open` with `host` and
`password`, and `sql.Open` returns no error. -/
def Opens (f : Flags) (w : World) (host password : String) : Prop :=
  f.flagVersion = false ∧ ResolvedHost f w host ∧ LoadedPassword f w password ∧
    w.sqlOpen "postgres" (connStr f host password) = .ok ()

/-- The connection opens and the liveness query returns the string `test`. -/
def LivenessPasses (f : Flags) (w : World) (host password : String) : Prop :=
  Opens f w host password ∧
    w.queryRowString ⟨"postgres", connStr f host password⟩ sqlTest [] = .ok "test"

/-- The lock-age step does not end the run: it is skipped, or its count is not positive. -/
def LocksPass (f : Flags) (w : World) (host password : String) : Prop :=
  ¬ f.flagMaxLockAge > 0 ∨
  (f.flagMaxLockAge > 0 ∧ ∃ k, w.queryRowInt ⟨"postgres", connStr f host password⟩ sqlLocks
    [fmtD f.flagMaxLockAge ++ " seconds"] = .ok k ∧ ¬ k > 0)

/-- The query-duration step does not end the run. -/
def QueriesPass (f : Flags) (w : World) (host password : String) : Prop :=
  ¬ f.flagMaxQueryDuration > 0 ∨
  (f.flagMaxQueryDuration > 0 ∧ ∃ k, w.queryRowInt ⟨"postgres", connStr f host password⟩
    sqlQueries [fmtD f.flagMaxQueryDuration ++ " seconds"] = .ok k ∧ ¬ k > 0)

/-- A query with text `query` was executed during the run. -/
def Executed (query : String) (p : Process) : Prop :=
  ∃ db args, Call.queryRow db query args ∈ p.calls

/-- Calls of the DNS step. -/
def dnsCalls (f : Flags) : List Call :=
  if f.flagDNS ≠ "" then [Call.dnsExchange (f.flagHost ++ ".") f.flagDNS] else []

/-- Calls of the password step. -/
def passwordCalls (f : Flags) : List Call :=
  if f.flagPasswordFile ≠ "" then [Call.readFile f.flagPasswordFile] else []

/-- Calls up to and including `sql.Open`. -/
def openCalls (f : Flags) (host password : String) : List Call :=
  dnsCalls f ++ passwordCalls f ++ [Call.sqlOpen "postgres" (connStr f host password)]

/-- Calls up to and including the liveness query. -/
def livenessCalls (f : Flags) (host password : String) : List Call :=
  openCalls f host password ++ [Call.queryRow ⟨"postgres", connStr f host password⟩ sqlTest []]

/-- Calls of the lock-age step. -/
def locksCalls (f : Flags) (host password : String) : List Call :=
  if f.flagMaxLockAge > 0 then
    [Call.queryRow ⟨"postgres", connStr f host password⟩ sqlLocks
      [fmtD f.flagMaxLockAge ++ " seconds"]]
  else []

/-- Calls of the query-duration step. -/
def queriesCalls (f : Flags) (host password : String) : List Call :=
  if f.flagMaxQueryDuration > 0 then
    [Call.queryRow ⟨"postgres", connStr f host password⟩ sqlQueries
      [fmtD f.flagMaxQueryDuration ++ " seconds"]]
  else []

/-- The stopping points of `main`, each with the answers of the world that lead to it and
the process an observer sees.  `exec_of_stop` and `stop_exec` show that this table
describes `exec` exactly. -/
inductive Stop (f : Flags) (w : World) : Process → Prop
  | version (hv : f.flagVersion = true) :
    Stop f w ⟨[], [w.ProjectName ++ " " ++ w.BuildVersion ++ " (Build " ++ w.BuildDate ++ ")\n",
      "\n", "https://github.com/indece-official/sshmon-check-postgres\n", "\n",
      "Copyright 2020 by indece UG (haftungsbeschränkt)\n"], 0⟩
  | dnsPanic (rrtype : String) (rest : List RR) (hv : f.flagVersion = false)
    (hd : f.flagDNS ≠ "")
    (hx : w.exchange (f.flagHost ++ ".") f.flagDNS = .ok (RR.other rrtype :: rest)) :
    Stop f w ⟨dnsCalls f, [], 2⟩
  | dnsError (err : String) (hv : f.flagVersion = false) (hd : f.flagDNS ≠ "")
    (hx : w.exchange (f.flagHost ++ ".") f.flagDNS = .error err) :
    Stop f w ⟨dnsCalls f, [fmtResolveError (serviceName f) f.flagHost f.flagDNS
      ("Can't resolve '" ++ f.flagHost ++ "' on " ++ f.flagDNS ++ ": " ++ err)], 0⟩
  | dnsEmpty (hv : f.flagVersion = false) (hd : f.flagDNS ≠ "")
    (hx : w.exchange (f.flagHost ++ ".") f.flagDNS = .ok []) :
    Stop f w ⟨dnsCalls f, [fmtResolveError (serviceName f) f.flagHost f.flagDNS
      ("Can't resolve '" ++ f.flagHost ++ "' on " ++ f.flagDNS ++ ": No results")], 0⟩
  | passwordFile (host err : String) (hv : f.flagVersion = false) (hh : ResolvedHost f w host)
    (hf : f.flagPasswordFile ≠ "") (hr : w.readFile f.flagPasswordFile = .error err) :
    Stop f w ⟨dnsCalls f ++ passwordCalls f,
      [fmtPasswordFileError (serviceName f) f.flagPasswordFile err], 1⟩
  | connect (host password err : String) (hv : f.flagVersion = false)
    (hh : ResolvedHost f w host) (hp : LoadedPassword f w password)
    (ho : w.sqlOpen "postgres" (connStr f host password) = .error err) :
    Stop f w ⟨openCalls f host password,
      [fmtConnectError (serviceName f) f.flagDatabase host f.flagPort f.flagUser err], 0⟩
  | livenessError (host password err : String) (h : Opens f w host password)
    (hq : w.queryRowString ⟨"postgres", connStr f host password⟩ sqlTest [] = .error err) :
    Stop f w ⟨livenessCalls f host password,
      [fmtTestError (serviceName f) f.flagDatabase host f.flagPort err], 0⟩
  | livenessValue (host password value : String) (h : Opens f w host password)
    (hq : w.queryRowString ⟨"postgres", connStr f host password⟩ sqlTest [] = .ok value)
    (hne : value ≠ "test") :
    Stop f w ⟨livenessCalls f host password,
      [fmtTestError (serviceName f) f.flagDatabase host f.flagPort
        ("Postgres is crazy (returned '" ++ value ++ "' instead of 'test')")], 0⟩
  | locksError (host password err : String) (h : LivenessPasses f w host password)
    (hN : f.flagMaxLockAge > 0)
    (hq : w.queryRowInt ⟨"postgres", connStr f host password⟩ sqlLocks
      [fmtD f.flagMaxLockAge ++ " seconds"] = .error err) :
    Stop f w ⟨livenessCalls f host password ++ locksCalls f host password,
      [fmtLocksError (serviceName f) f.flagDatabase host f.flagPort err], 0⟩
  | locksWarn (host password : String) (k : Int) (h : LivenessPasses f w host password)
    (hN : f.flagMaxLockAge > 0)
    (hq : w.queryRowInt ⟨"postgres", connStr f host password⟩ sqlLocks
      [fmtD f.flagMaxLockAge ++ " seconds"] = .ok k) (hk : k > 0) :
    Stop f w ⟨livenessCalls f host password ++ locksCalls f host password,
      [fmtLocksWarn (serviceName f) k f.flagDatabase host f.flagPort f.flagMaxLockAge], 0⟩
  | queriesError (host password err : String) (h : LivenessPasses f w host password)
    (hl : LocksPass f w host password) (hN : f.flagMaxQueryDuration > 0)
    (hq : w.queryRowInt ⟨"postgres", connStr f host password⟩ sqlQueries
      [fmtD f.flagMaxQueryDuration ++ " seconds"] = .error err) :
    Stop f w ⟨livenessCalls f host password ++ locksCalls f host password ++
        queriesCalls f host password,
      [fmtQueriesError (serviceName f) f.flagDatabase host f.flagPort err], 0⟩
  | queriesWarn (host password : String) (k : Int) (h : LivenessPasses f w host password)
    (hl : LocksPass f w host password) (hN : f.flagMaxQueryDuration > 0)
    (hq : w.queryRowInt ⟨"postgres", connStr f host password⟩ sqlQueries
      [fmtD f.flagMaxQueryDuration ++ " seconds"] = .ok k) (hk : k > 0) :
    Stop f w ⟨livenessCalls f host password ++ locksCalls f host password ++
        queriesCalls f host password,
      [fmtQueriesWarn (serviceName f) k f.flagDatabase host f.flagPort f.flagMaxQueryDuration],
      0⟩
  | ok (host password : String) (h : LivenessPasses f w host password)
    (hl : LocksPass f w host password) (hq : QueriesPass f w host password) :
    Stop f w ⟨livenessCalls f host password ++ locksCalls f host password ++
        queriesCalls f host password,
      [fmtOK (serviceName f) f.flagDatabase host f.flagPort], 0⟩

/-- The steps of `main` that can return an error. -/
inductive Step where
  | dns
  | passwordFile
  | connect
  | liveness
  | locks
  | queries
  deriving DecidableEq, Repr

/-- The run reaches `step` and that step returns an error: `Fails f w step`.  A step
fails when the call it makes returns an error value (or, for liveness, a wrong value):
* `dns`: `-dns` is set and the exchange errors or answers with an empty answer section;
* `passwordFile`: the DNS step is passed, `-passwordfile` is set and the read errors;
* `connect`: host and password are there and `sql.Open` errors;
* `liveness`: the connection opens and the liveness query errors or returns a value
  other than `test`;
* `locks`: liveness passes, `-maxlockage` is positive and the lock query errors;
* `queries`: liveness passes, the lock step does not end the run, `-maxqueryduration` is
  positive and the query-duration query errors. -/
inductive Fails (f : Flags) (w : World) : Step → Prop
  | dnsError (err : String) (hd : f.flagDNS ≠ "")
    (hx : w.exchange (f.flagHost ++ ".") f.flagDNS = .error err) : Fails f w Step.dns
  | dnsEmpty (hd : f.flagDNS ≠ "")
    (hx : w.exchange (f.flagHost ++ ".") f.flagDNS = .ok []) : Fails f w Step.dns
  | passwordFile (host err : String) (hh : ResolvedHost f w host)
    (hf : f.flagPasswordFile ≠ "") (hr : w.readFile f.flagPasswordFile = .error err) :
    Fails f w Step.passwordFile
  | connect (host password err : String) (hh : ResolvedHost f w host)
    (hp : LoadedPassword f w password)
    (ho : w.sqlOpen "postgres" (connStr f host password) = .error err) :
    Fails f w Step.connect
  | livenessError (host password err : String) (h : Opens f w host password)
    (hq : w.queryRowString ⟨"postgres", connStr f host password⟩ sqlTest [] = .error err) :
    Fails f w Step.liveness
  | livenessValue (host password value : String) (h : Opens f w host password)
    (hq : w.queryRowString ⟨"postgres", connStr f host password⟩ sqlTest [] = .ok value)
    (hne : value ≠ "test") : Fails f w Step.liveness
  | locks (host password err : String) (h : LivenessPasses f w host password)
    (hN : f.flagMaxLockAge > 0)
    (hq : w.queryRowInt ⟨"postgres", connStr f host password⟩ sqlLocks
      [fmtD f.flagMaxLockAge ++ " seconds"] = .error err) : Fails f w Step.locks
  | queries (host password err : String) (h : LivenessPasses f w host password)
    (hl : LocksPass f w host password) (hN : f.flagMaxQueryDuration > 0)
    (hq : w.queryRowInt ⟨"postgres", connStr f host password⟩ sqlQueries
      [fmtD f.flagMaxQueryDuration ++ " seconds"] = .error err) : Fails f w Step.queries

/-! ## Concrete runs -/

/-- Flags `-host db1 -db mydb -user monitor -password secret`, everything else default. -/
def flagsDb1 : Flags :=
  { flagVersion := false, flagService := "", flagHost := "db1", flagPort := 5432,
    flagDatabase := "mydb", flagUser := "monitor", flagPassword := "secret",
    flagPasswordFile := "", flagDNS := "", flagConnTimeout := 5, flagMaxLockAge := 0,
    flagMaxQueryDuration := 0 }

/-- A world in which every call succeeds: the resolver answers with one A record, the
password file holds `s3cret` followed by a blank and a newline, the liveness query returns
`test` and both counts are 3. -/
def worldOk : World :=
  { ProjectName := "sshmon-check-postgres", BuildVersion := "1.0.0", BuildDate := "2020-01-01",
    exchange := fun _ _ => .ok [RR.A "10.0.0.7"],
    readFile := fun _ => .ok "s3cret \n",
    sqlOpen := fun _ _ => .ok (),
    queryRowString := fun _ _ _ => .ok "test",
    queryRowInt := fun _ _ _ => .ok 3 }

/-- Both thresholds set: `-maxlockage 30 -maxqueryduration 7`. -/
def flagsThresholds : Flags :=
  { flagsDb1 with flagMaxLockAge := 30, flagMaxQueryDuration := 7 }

/-- As `worldOk`, but the liveness query returns `tset`. -/
def worldCrazy : World :=
  { worldOk with queryRowString := fun _ _ _ => .ok "tset" }

/-- Password taken from a file: `-password ignored -passwordfile /etc/sshmon/pgpass`. -/
def flagsPasswordFile : Flags :=
  { flagsDb1 with flagPassword := "ignored", flagPasswordFile := "/etc/sshmon/pgpass" }

/-- As `worldOk`, but the password file cannot be read. -/
def worldNoFile : World :=
  { worldOk with
    readFile := fun _ => .error "open /etc/sshmon/pgpass: no such file or directory" }

/-- Alternate resolver: `-host www.example.org -dns 10.0.0.53:53`, both thresholds set. -/
def flagsDNS : Flags :=
  { flagsThresholds with flagHost := "www.example.org", flagDNS := "10.0.0.53:53" }

/-- As `worldOk`, but the DNS exchange times out. -/
def worldDNSTimeout : World :=
  { worldOk with
    exchange := fun _ _ => .error "read udp 10.0.0.53:53: i/o timeout" }

/-- As `worldOk`, but the host is an alias: the answer section holds its CNAME record
followed by the A record of the canonical name. -/
def worldCNAME : World :=
  { worldOk with exchange := fun _ _ => .ok [RR.other "CNAME", RR.A "10.0.0.7"] }

/-- A negative lock-age threshold: `-maxlockage -5`. -/
def flagsNegative : Flags :=
  { flagsDb1 with flagMaxLockAge := -5 }

/-! ## The stopping points describe `exec` -/

theorem exec_of_stop {f : Flags} {w : World} {p : Process} (h : Stop f w p) : exec f w = p := by
  cases h with
  | version hv => simp [exec, main, terminate, State.init, State.printf, hv]
  | dnsPanic rrtype rest hv hd hx =>
    simp [exec, main, terminate, resolveDNS, State.init, State.call, dnsCalls, hv, hd, hx]
  | dnsError err hv hd hx =>
    simp [exec, main, terminate, resolveDNS, State.init, State.call, State.printf, dnsCalls,
      hv, hd, hx]
  | dnsEmpty hv hd hx =>
    simp [exec, main, terminate, resolveDNS, State.init, State.call, State.printf, dnsCalls,
      hv, hd, hx]
  | passwordFile host err hv hh hf hr =>
    rcases hh with ⟨hd, rfl⟩ | ⟨hd, rest, hx⟩ <;>
    simp [exec, main, terminate, resolveDNS, State.init, State.call, State.printf, dnsCalls,
      passwordCalls, hv, hd, hf, hr, *]
  | connect host password err hv hh hp ho =>
    rcases hh with ⟨hd, rfl⟩ | ⟨hd, rest, hx⟩ <;> rcases hp with ⟨hf, rfl⟩ | ⟨hf, hr⟩ <;>
    simp [exec, main, terminate, resolveDNS, State.init, State.call, State.printf, dnsCalls,
      passwordCalls, openCalls, hv, hd, hf, ho, *]
  | livenessError host password err h hq =>
    obtain ⟨hv, hh, hp, ho⟩ := h
    rcases hh with ⟨hd, rfl⟩ | ⟨hd, rest, hx⟩ <;> rcases hp with ⟨hf, rfl⟩ | ⟨hf, hr⟩ <;>
    simp [exec, main, terminate, resolveDNS, checkConnection, State.init, State.call,
      State.printf, State.defer, dnsCalls, passwordCalls, openCalls, livenessCalls,
      hv, hd, hf, ho, hq, *]
  | livenessValue host password value h hq hne =>
    obtain ⟨hv, hh, hp, ho⟩ := h
    rcases hh with ⟨hd, rfl⟩ | ⟨hd, rest, hx⟩ <;> rcases hp with ⟨hf, rfl⟩ | ⟨hf, hr⟩ <;>
    simp [exec, main, terminate, resolveDNS, checkConnection, State.init, State.call,
      State.printf, State.defer, dnsCalls, passwordCalls, openCalls, livenessCalls,
      hv, hd, hf, ho, hq, hne, *]
  | locksError host password err h hN hq =>
    obtain ⟨⟨hv, hh, hp, ho⟩, hl⟩ := h
    rcases hh with ⟨hd, rfl⟩ | ⟨hd, rest, hx⟩ <;> rcases hp with ⟨hf, rfl⟩ | ⟨hf, hr⟩ <;>
    simp [exec, main, terminate, resolveDNS, checkConnection, checkLocks, State.init, State.call,
      State.printf, State.defer, dnsCalls, passwordCalls, openCalls, livenessCalls, locksCalls,
      hv, hd, hf, ho, hq, hl, hN, *]
  | locksWarn host password k h hN hq hk =>
    obtain ⟨⟨hv, hh, hp, ho⟩, hl⟩ := h
    rcases hh with ⟨hd, rfl⟩ | ⟨hd, rest, hx⟩ <;> rcases hp with ⟨hf, rfl⟩ | ⟨hf, hr⟩ <;>
    simp [exec, main, terminate, resolveDNS, checkConnection, checkLocks, State.init, State.call,
      State.printf, State.defer, dnsCalls, passwordCalls, openCalls, livenessCalls, locksCalls,
      hv, hd, hf, ho, hq, hl, hN, hk, *]
  | queriesError host password err h hl hN hq =>
    obtain ⟨⟨hv, hh, hp, ho⟩, hlive⟩ := h
    rcases hh with ⟨hd, rfl⟩ | ⟨hd, rest, hx⟩ <;> rcases hp with ⟨hf, rfl⟩ | ⟨hf, hr⟩ <;>
    rcases hl with hl | ⟨hl, k, hlq, hlk⟩ <;>
    simp [exec, main, terminate, resolveDNS, checkConnection, checkLocks, checkQueries,
      State.init, State.call, State.printf, State.defer, dnsCalls, passwordCalls, openCalls,
      livenessCalls, locksCalls, queriesCalls, hv, hd, hf, ho, hq, hl, hN, hlive, *]
  | queriesWarn host password k h hl hN hq hk =>
    obtain ⟨⟨hv, hh, hp, ho⟩, hlive⟩ := h
    rcases hh with ⟨hd, rfl⟩ | ⟨hd, rest, hx⟩ <;> rcases hp with ⟨hf, rfl⟩ | ⟨hf, hr⟩ <;>
    rcases hl with hl | ⟨hl, k', hlq, hlk⟩ <;>
    simp [exec, main, terminate, resolveDNS, checkConnection, checkLocks, checkQueries,
      State.init, State.call, State.printf, State.defer, dnsCalls, passwordCalls, openCalls,
      livenessCalls, locksCalls, queriesCalls, hv, hd, hf, ho, hq, hl, hN, hlive, hk, *]
  | ok host password h hl hq =>
    obtain ⟨⟨hv, hh, hp, ho⟩, hlive⟩ := h
    rcases hh with ⟨hd, rfl⟩ | ⟨hd, rest, hx⟩ <;> rcases hp with ⟨hf, rfl⟩ | ⟨hf, hr⟩ <;>
    rcases hl with hl | ⟨hl, k, hlq, hlk⟩ <;> rcases hq with hq | ⟨hq, k', hqq, hqk⟩ <;>
    simp [exec, main, terminate, resolveDNS, checkConnection, checkLocks, checkQueries,
      State.init, State.call, State.printf, State.defer, dnsCalls, passwordCalls, openCalls,
      livenessCalls, locksCalls, queriesCalls, hv, hd, hf, ho, hq, hl, hlive, *]

theorem stop_total (f : Flags) (w : World) : ∃ p, Stop f w p := by
  cases hv : f.flagVersion with
  | true => exact ⟨_, Stop.version hv⟩
  | false =>
  -- the DNS step
  have hdns : (∃ host, ResolvedHost f w host) ∨ ∃ p, Stop f w p := by
    by_cases hd : f.flagDNS = ""
    · exact Or.inl ⟨f.flagHost, Or.inl ⟨hd, rfl⟩⟩
    · cases hx : w.exchange (f.flagHost ++ ".") f.flagDNS with
      | error err => exact Or.inr ⟨_, Stop.dnsError err hv hd hx⟩
      | ok answer =>
        cases answer with
        | nil => exact Or.inr ⟨_, Stop.dnsEmpty hv hd hx⟩
        | cons rr rest =>
          cases rr with
          | A addr => exact Or.inl ⟨addr, Or.inr ⟨hd, rest, hx⟩⟩
          | other rrtype => exact Or.inr ⟨_, Stop.dnsPanic rrtype rest hv hd hx⟩
  rcases hdns with ⟨host, hh⟩ | hstop
  swap
  · exact hstop
  -- the password step
  have hpw : (∃ password, LoadedPassword f w password) ∨ ∃ p, Stop f w p := by
    by_cases hf : f.flagPasswordFile = ""
    · exact Or.inl ⟨f.flagPassword, Or.inl ⟨hf, rfl⟩⟩
    · cases hr : w.readFile f.flagPasswordFile with
      | error err => exact Or.inr ⟨_, Stop.passwordFile host err hv hh hf hr⟩
      | ok content => exact Or.inl ⟨content, Or.inr ⟨hf, hr⟩⟩
  rcases hpw with ⟨password, hp⟩ | hstop
  swap
  · exact hstop
  -- sql.Open
  cases ho : w.sqlOpen "postgres" (connStr f host password) with
  | error err => exact ⟨_, Stop.connect host password err hv hh hp ho⟩
  | ok u =>
  have hopen : Opens f w host password := ⟨hv, hh, hp, ho⟩
  -- the liveness check
  cases hq : w.queryRowString ⟨"postgres", connStr f host password⟩ sqlTest [] with
  | error err => exact ⟨_, Stop.livenessError host password err hopen hq⟩
  | ok value =>
  by_cases hne : value = "test"
  swap
  · exact ⟨_, Stop.livenessValue host password value hopen hq hne⟩
  subst hne
  have hlive : LivenessPasses f w host password := ⟨hopen, hq⟩
  -- the lock-age check
  have hlocks : LocksPass f w host password ∨ ∃ p, Stop f w p := by
    by_cases hN : f.flagMaxLockAge > 0
    · cases hl : w.queryRowInt ⟨"postgres", connStr f host password⟩ sqlLocks
          [fmtD f.flagMaxLockAge ++ " seconds"] with
      | error err => exact Or.inr ⟨_, Stop.locksError host password err hlive hN hl⟩
      | ok k =>
        by_cases hk : k > 0
        · exact Or.inr ⟨_, Stop.locksWarn host password k hlive hN hl hk⟩
        · exact Or.inl (Or.inr ⟨hN, k, hl, hk⟩)
    · exact Or.inl (Or.inl hN)
  rcases hlocks with hl | hstop
  swap
  · exact hstop
  -- the query-duration check
  by_cases hN : f.flagMaxQueryDuration > 0
  · cases hd : w.queryRowInt ⟨"postgres", connStr f host password⟩ sqlQueries
        [fmtD f.flagMaxQueryDuration ++ " seconds"] with
    | error err => exact ⟨_, Stop.queriesError host password err hlive hl hN hd⟩
    | ok k =>
      by_cases hk : k > 0
      · exact ⟨_, Stop.queriesWarn host password k hlive hl hN hd hk⟩
      · exact ⟨_, Stop.ok host password hlive hl (Or.inr ⟨hN, k, hd, hk⟩)⟩
  · exact ⟨_, Stop.ok host password hlive hl (Or.inl hN)⟩

theorem stop_exec (f : Flags) (w : World) : Stop f w (exec f w) := by
  obtain ⟨p, hp⟩ := stop_total f w
  rw [exec_of_stop hp]
  exact hp

theorem resolvedHost_unique {f : Flags} {w : World} {h₁ h₂ : String}
    (a : ResolvedHost f w h₁) (b : ResolvedHost f w h₂) : h₁ = h₂ := by
  rcases a with ⟨da, rfl⟩ | ⟨da, ra, xa⟩ <;> rcases b with ⟨db, rfl⟩ | ⟨db, rb, xb⟩
  · rfl
  · exact absurd da db
  · exact absurd db da
  · rw [xa] at xb
    injection xb with e
    injection e with e₁ _
    injection e₁

theorem loadedPassword_unique {f : Flags} {w : World} {p₁ p₂ : String}
    (a : LoadedPassword f w p₁) (b : LoadedPassword f w p₂) : p₁ = p₂ := by
  rcases a with ⟨fa, rfl⟩ | ⟨fa, ra⟩ <;> rcases b with ⟨fb, rfl⟩ | ⟨fb, rb⟩
  · rfl
  · exact absurd fa fb
  · exact absurd fb fa
  · rw [ra] at rb
    injection rb

theorem sqlTest_ne_sqlLocks : sqlTest ≠ sqlLocks := by decide

theorem sqlTest_ne_sqlQueries : sqlTest ≠ sqlQueries := by decide

theorem sqlLocks_ne_sqlQueries : sqlLocks ≠ sqlQueries := by decide

/-! ## Which calls a run contains -/

theorem queryRow_not_mem_openCalls (f : Flags) (host password : String) (db : DB) (q : String)
    (args : List String) : Call.queryRow db q args ∉ openCalls f host password := by
  unfold openCalls dnsCalls passwordCalls
  split_ifs <;> simp

theorem queryRow_mem_livenessCalls (f : Flags) (host password : String) (db : DB) (q : String)
    (args : List String) :
    Call.queryRow db q args ∈ livenessCalls f host password ↔
      db = ⟨"postgres", connStr f host password⟩ ∧ q = sqlTest ∧ args = [] := by
  simp [livenessCalls, queryRow_not_mem_openCalls]

theorem queryRow_mem_locksCalls (f : Flags) (host password : String) (db : DB) (q : String)
    (args : List String) :
    Call.queryRow db q args ∈ locksCalls f host password ↔
      f.flagMaxLockAge > 0 ∧ db = ⟨"postgres", connStr f host password⟩ ∧ q = sqlLocks ∧
        args = [fmtD f.flagMaxLockAge ++ " seconds"] := by
  unfold locksCalls
  split_ifs with h <;> simp [h]

theorem queryRow_mem_queriesCalls (f : Flags) (host password : String) (db : DB) (q : String)
    (args : List String) :
    Call.queryRow db q args ∈ queriesCalls f host password ↔
      f.flagMaxQueryDuration > 0 ∧ db = ⟨"postgres", connStr f host password⟩ ∧
        q = sqlQueries ∧ args = [fmtD f.flagMaxQueryDuration ++ " seconds"] := by
  unfold queriesCalls
  split_ifs with h <;> simp [h]

theorem sqlOpen_mem_openCalls (f : Flags) (host password d c : String) :
    Call.sqlOpen d c ∈ openCalls f host password ↔
      d = "postgres" ∧ c = connStr f host password := by
  unfold openCalls dnsCalls passwordCalls
  split_ifs <;> simp

theorem sqlOpen_mem_livenessCalls (f : Flags) (host password d c : String) :
    Call.sqlOpen d c ∈ livenessCalls f host password ↔
      d = "postgres" ∧ c = connStr f host password := by
  simp [livenessCalls, sqlOpen_mem_openCalls]

theorem sqlOpen_not_mem_locksCalls (f : Flags) (host password d c : String) :
    Call.sqlOpen d c ∉ locksCalls f host password := by
  unfold locksCalls
  split_ifs <;> simp

theorem sqlOpen_not_mem_queriesCalls (f : Flags) (host password d c : String) :
    Call.sqlOpen d c ∉ queriesCalls f host password := by
  unfold queriesCalls
  split_ifs <;> simp

theorem dbClose_not_mem_livenessCalls (f : Flags) (host password : String) (db : DB) :
    Call.dbClose db ∉ livenessCalls f host password := by
  unfold livenessCalls openCalls dnsCalls passwordCalls
  split_ifs <;> simp

theorem dbClose_not_mem_locksCalls (f : Flags) (host password : String) (db : DB) :
    Call.dbClose db ∉ locksCalls f host password := by
  unfold locksCalls
  split_ifs <;> simp

theorem dbClose_not_mem_queriesCalls (f : Flags) (host password : String) (db : DB) :
    Call.dbClose db ∉ queriesCalls f host password := by
  unfold queriesCalls
  split_ifs <;> simp

theorem executed_livenessCalls (f : Flags) (host password q : String) (out : List String)
    (code : Int) : Executed q ⟨livenessCalls f host password, out, code⟩ ↔ q = sqlTest := by
  simp [Executed, queryRow_mem_livenessCalls]

theorem executed_locksCalls (f : Flags) (host password q : String) (out : List String)
    (code : Int) :
    Executed q ⟨livenessCalls f host password ++ locksCalls f host password, out, code⟩ ↔
      q = sqlTest ∨ (f.flagMaxLockAge > 0 ∧ q = sqlLocks) := by
  simp [Executed, queryRow_mem_livenessCalls, queryRow_mem_locksCalls, exists_or]

theorem executed_queriesCalls (f : Flags) (host password q : String) (out : List String)
    (code : Int) :
    Executed q ⟨livenessCalls f host password ++ locksCalls f host password ++
      queriesCalls f host password, out, code⟩ ↔
      q = sqlTest ∨ (f.flagMaxLockAge > 0 ∧ q = sqlLocks) ∨
        (f.flagMaxQueryDuration > 0 ∧ q = sqlQueries) := by
  simp [Executed, queryRow_mem_livenessCalls, queryRow_mem_locksCalls,
    queryRow_mem_queriesCalls, exists_or]

/-! ## C1: a wrong liveness value -/

/-- C1: if the connection opens and the liveness query returns a value other than `test`,
the run prints a line with code 2 and text CRIT, and executes neither the lock query nor
the query-duration query, whatever the thresholds and the answers of the later steps. -/
theorem liveness_mismatch_is_crit (f : Flags) (w : World) (host password value : String)
    (hopen : Opens f w host password)
    (hq : w.queryRowString ⟨"postgres", connStr f host password⟩ sqlTest [] = .ok value)
    (hne : value ≠ "test") :
    (exec f w).stdout = ["2 " ++ serviceName f ++ " - " ++ "CRIT" ++ " - " ++
      ("Error testing connection on database '" ++ f.flagDatabase ++ "' on " ++ host ++ ":" ++
        fmtD f.flagPort ++ ": " ++
        ("Postgres is crazy (returned '" ++ value ++ "' instead of 'test')")) ++ "\n"] ∧
    ¬ Executed sqlLocks (exec f w) ∧ ¬ Executed sqlQueries (exec f w) := by
  rw [exec_of_stop (Stop.livenessValue host password value hopen hq hne)]
  refine ⟨rfl, ?_, ?_⟩
  · rw [executed_livenessCalls]
    exact Ne.symm sqlTest_ne_sqlLocks
  · rw [executed_livenessCalls]
    exact Ne.symm sqlTest_ne_sqlQueries

theorem liveness_mismatch_is_crit_witness :
    (exec flagsThresholds worldCrazy).stdout =
      ["2 Postgres_db1 - CRIT - Error testing connection on database 'mydb' on db1:5432: Postgres is crazy (returned 'tset' instead of 'test')\n"] ∧
    ¬ Executed sqlLocks (exec flagsThresholds worldCrazy) ∧
    ¬ Executed sqlQueries (exec flagsThresholds worldCrazy) :=
  liveness_mismatch_is_crit flagsThresholds worldCrazy "db1" "secret" "tset"
    ⟨rfl, Or.inl ⟨rfl, rfl⟩, Or.inl ⟨rfl, rfl⟩, rfl⟩ rfl (by decide)

/-! ## C2: the lock-age warning -/

/-- C2: with `-maxlockage N`, `N > 0`, a passing liveness check and a lock count `k > 0`,
the run prints exactly the lock-age WARN line, exits with status 0, and never executes the
query-duration query, whatever `-maxqueryduration` is and whatever that query would
return. -/
theorem locks_warn_short_circuits (f : Flags) (w : World) (host password : String) (k : Int)
    (hlive : LivenessPasses f w host password) (hN : f.flagMaxLockAge > 0)
    (hq : w.queryRowInt ⟨"postgres", connStr f host password⟩ sqlLocks
      [fmtD f.flagMaxLockAge ++ " seconds"] = .ok k)
    (hk : k > 0) :
    (exec f w).stdout = ["1 " ++ serviceName f ++ " - " ++ "WARN" ++ " - " ++
      (fmtD k ++ " locks on database '" ++ f.flagDatabase ++ "' on " ++ host ++ ":" ++
        fmtD f.flagPort ++ " have exceeded the max age of " ++ fmtD f.flagMaxLockAge ++
        " seconds") ++ "\n"] ∧
    (exec f w).exitCode = 0 ∧ ¬ Executed sqlQueries (exec f w) := by
  rw [exec_of_stop (Stop.locksWarn host password k hlive hN hq hk)]
  refine ⟨rfl, rfl, ?_⟩
  rw [executed_locksCalls]
  rintro (h | ⟨_, h⟩)
  · exact sqlTest_ne_sqlQueries h.symm
  · exact sqlLocks_ne_sqlQueries h.symm

theorem locks_warn_short_circuits_witness :
    (exec flagsThresholds worldOk).stdout =
      ["1 Postgres_db1 - WARN - 3 locks on database 'mydb' on db1:5432 have exceeded the max age of 30 seconds\n"] ∧
    (exec flagsThresholds worldOk).exitCode = 0 ∧
    ¬ Executed sqlQueries (exec flagsThresholds worldOk) :=
  locks_warn_short_circuits flagsThresholds worldOk "db1" "secret" 3
    ⟨⟨rfl, Or.inl ⟨rfl, rfl⟩, Or.inl ⟨rfl, rfl⟩, rfl⟩, rfl⟩ (by decide) rfl (by decide)

/-! ## C3: no thresholds -/

/-- C3: with `-maxlockage 0` and `-maxqueryduration 0`, an open connection and a passing
liveness check, the run prints exactly the OK line and exits with status 0; the service
name in it is the `-service` value, or `Postgres_` followed by the `-host` value when
`-service` is empty. -/
theorem ok_when_thresholds_disabled (f : Flags) (w : World) (host password : String)
    (hlive : LivenessPasses f w host password) (hl : f.flagMaxLockAge = 0)
    (hd : f.flagMaxQueryDuration = 0) :
    (exec f w).stdout = ["0 " ++ serviceName f ++ " - " ++ "OK" ++ " - " ++
      ("Postgres database '" ++ f.flagDatabase ++ "' on " ++ host ++ ":" ++ fmtD f.flagPort ++
        " is up and running") ++ "\n"] ∧
    (exec f w).exitCode = 0 ∧
    (f.flagService ≠ "" → serviceName f = f.flagService) ∧
    (f.flagService = "" → serviceName f = "Postgres_" ++ f.flagHost) := by
  have h1 : LocksPass f w host password := Or.inl (by rw [hl]; decide)
  have h2 : QueriesPass f w host password := Or.inl (by rw [hd]; decide)
  rw [exec_of_stop (Stop.ok host password hlive h1 h2)]
  refine ⟨rfl, rfl, ?_, ?_⟩
  · intro h
    simp [serviceName, h]
  · intro h
    simp [serviceName, h]

theorem ok_when_thresholds_disabled_witness :
    (exec flagsDb1 worldOk).stdout =
      ["0 Postgres_db1 - OK - Postgres database 'mydb' on db1:5432 is up and running\n"] ∧
    (exec flagsDb1 worldOk).exitCode = 0 ∧
    (flagsDb1.flagService ≠ "" → serviceName flagsDb1 = flagsDb1.flagService) ∧
    (flagsDb1.flagService = "" → serviceName flagsDb1 = "Postgres_" ++ flagsDb1.flagHost) :=
  ok_when_thresholds_disabled flagsDb1 worldOk "db1" "secret"
    ⟨⟨rfl, Or.inl ⟨rfl, rfl⟩, Or.inl ⟨rfl, rfl⟩, rfl⟩, rfl⟩ rfl rfl

/-! ## Severity of failures and exit codes on runs that print a line -/

/-- In every run with `-v` unset: a step that returns an error (DNS resolution,
password-file read, connection open, liveness, lock query, query-duration query) makes the
run print one line with code 2 and text CRIT; the exit status is 1 exactly when the run
stopped at a failing password-file read; and every other run that prints a status line
(OK, WARN or another CRIT) exits with status 0.  The guard on a printed line is needed:
the run that crashes in `resolveDNS` prints nothing and has exit status 2. -/
theorem failures_are_crit_and_exit_codes (f : Flags) (w : World) (hv : f.flagVersion = false) :
    (∀ step, Fails f w step → ∃ msg, (exec f w).stdout =
      ["2 " ++ serviceName f ++ " - " ++ "CRIT" ++ " - " ++ msg ++ "\n"]) ∧
    ((exec f w).exitCode = 1 ↔ Fails f w Step.passwordFile) ∧
    ((exec f w).stdout ≠ [] → ¬ Fails f w Step.passwordFile → (exec f w).exitCode = 0) := by
  refine ⟨?_, ⟨?_, ?_⟩, ?_⟩
  · intro step hfail
    cases hfail with
    | dnsError err hd hx => exact ⟨_, by rw [exec_of_stop (Stop.dnsError err hv hd hx)]; rfl⟩
    | dnsEmpty hd hx => exact ⟨_, by rw [exec_of_stop (Stop.dnsEmpty hv hd hx)]; rfl⟩
    | passwordFile host err hh hf hr =>
      exact ⟨_, by rw [exec_of_stop (Stop.passwordFile host err hv hh hf hr)]; rfl⟩
    | connect host password err hh hp ho =>
      exact ⟨_, by rw [exec_of_stop (Stop.connect host password err hv hh hp ho)]; rfl⟩
    | livenessError host password err h hq =>
      exact ⟨_, by rw [exec_of_stop (Stop.livenessError host password err h hq)]; rfl⟩
    | livenessValue host password value h hq hne =>
      exact ⟨_, by rw [exec_of_stop (Stop.livenessValue host password value h hq hne)]; rfl⟩
    | locks host password err h hN hq =>
      exact ⟨_, by rw [exec_of_stop (Stop.locksError host password err h hN hq)]; rfl⟩
    | queries host password err h hl hN hq =>
      exact ⟨_, by rw [exec_of_stop (Stop.queriesError host password err h hl hN hq)]; rfl⟩
  · intro h1
    have hs := stop_exec f w
    generalize exec f w = p at hs h1
    cases hs with
    | passwordFile host err _ hh hf hr => exact Fails.passwordFile host err hh hf hr
    | _ => simp at h1
  · intro hfail
    cases hfail with
    | passwordFile host err hh hf hr =>
      rw [exec_of_stop (Stop.passwordFile host err hv hh hf hr)]
  · intro hout hnot
    have hs := stop_exec f w
    generalize exec f w = p at hs hout
    cases hs with
    | passwordFile host err _ hh hf hr => exact absurd (Fails.passwordFile host err hh hf hr) hnot
    | dnsPanic rrtype rest _ hd hx => simp at hout
    | _ => rfl

/-- The run whose password file cannot be read exits with status 1. -/
theorem password_file_failure_exits_one :
    flagsPasswordFile.flagVersion = false ∧ (exec flagsPasswordFile worldNoFile).exitCode = 1 :=
  ⟨rfl, (failures_are_crit_and_exit_codes flagsPasswordFile worldNoFile rfl).2.1.mpr
    (Fails.passwordFile "db1" "open /etc/sshmon/pgpass: no such file or directory"
      (Or.inl ⟨rfl, rfl⟩) (by decide) rfl)⟩

/-! ## C6: DNS resolution failure -/

/-- C6: with `-dns` set, if the DNS exchange returns an error or an empty answer section,
then `resolveDNS` returns an error, the run prints the CRIT line (code 2) that reports the
resolution failure, and the DNS exchange is the only call of the run: `sql.Open`, the
liveness query and the threshold queries are never executed. -/
theorem dns_failure_is_crit_without_connection (f : Flags) (w : World)
    (hv : f.flagVersion = false) (hd : f.flagDNS ≠ "")
    (hx : (∃ err, w.exchange (f.flagHost ++ ".") f.flagDNS = .error err) ∨
      w.exchange (f.flagHost ++ ".") f.flagDNS = .ok []) :
    ∃ reason,
      (resolveDNS f w f.flagHost State.init).1 =
        Res.err ("Can't resolve '" ++ f.flagHost ++ "' on " ++ f.flagDNS ++ ": " ++ reason) ∧
      (exec f w).stdout = ["2 " ++ serviceName f ++ " - " ++ "CRIT" ++ " - " ++
        ("Error resolving ip of " ++ f.flagHost ++ " via dns " ++ f.flagDNS ++ ": " ++
          ("Can't resolve '" ++ f.flagHost ++ "' on " ++ f.flagDNS ++ ": " ++ reason)) ++
        "\n"] ∧
      (exec f w).calls = [Call.dnsExchange (f.flagHost ++ ".") f.flagDNS] ∧
      (∀ d c, Call.sqlOpen d c ∉ (exec f w).calls) ∧
      (∀ q, ¬ Executed q (exec f w)) := by
  rcases hx with ⟨err, hx⟩ | hx
  · refine ⟨err, ?_, ?_⟩
    · simp [resolveDNS, hx]
    · rw [exec_of_stop (Stop.dnsError err hv hd hx)]
      simp [fmtResolveError, statusMap, dnsCalls, hd, Executed]
  · have hsplit : ∀ a : String, a ++ ": " ++ "No results" = a ++ ": No results" := by
      intro a
      rw [String.append_assoc]
      rfl
    refine ⟨"No results", ?_, ?_⟩
    · simp [resolveDNS, hx, hsplit]
    · rw [exec_of_stop (Stop.dnsEmpty hv hd hx)]
      simp [fmtResolveError, statusMap, dnsCalls, hd, Executed, hsplit]

theorem dns_failure_is_crit_without_connection_witness :
    ∃ reason,
      (resolveDNS flagsDNS worldDNSTimeout flagsDNS.flagHost State.init).1 =
        Res.err ("Can't resolve '" ++ flagsDNS.flagHost ++ "' on " ++ flagsDNS.flagDNS ++ ": " ++
          reason) ∧
      (exec flagsDNS worldDNSTimeout).stdout = ["2 " ++ serviceName flagsDNS ++ " - " ++ "CRIT" ++
        " - " ++ ("Error resolving ip of " ++ flagsDNS.flagHost ++ " via dns " ++
          flagsDNS.flagDNS ++ ": " ++ ("Can't resolve '" ++ flagsDNS.flagHost ++ "' on " ++
            flagsDNS.flagDNS ++ ": " ++ reason)) ++ "\n"] ∧
      (exec flagsDNS worldDNSTimeout).calls =
        [Call.dnsExchange (flagsDNS.flagHost ++ ".") flagsDNS.flagDNS] ∧
      (∀ d c, Call.sqlOpen d c ∉ (exec flagsDNS worldDNSTimeout).calls) ∧
      (∀ q, ¬ Executed q (exec flagsDNS worldDNSTimeout)) :=
  dns_failure_is_crit_without_connection flagsDNS worldDNSTimeout rfl (by decide)
    (Or.inl ⟨"read udp 10.0.0.53:53: i/o timeout", rfl⟩)

/-! ## C7: the deferred `db.Close()` -/

/-- C7 (fails on the code): `db.Close()` is only deferred (line 236), and every path of
`main` after `sql.Open` ends in `os.Exit`, which does not run deferred calls.  The run
`-host db1` against a healthy server opens the connection, and no run at all executes
`db.Close()`. -/
theorem db_close_never_executed :
    Call.sqlOpen "postgres"
        "host=db1 port=5432 dbname=mydb user=monitor password=secret connect_timeout=5" ∈
      (exec flagsDb1 worldOk).calls ∧
    (main flagsDb1 worldOk).2.deferred = [Call.dbClose ⟨"postgres",
      "host=db1 port=5432 dbname=mydb user=monitor password=secret connect_timeout=5"⟩] ∧
    ∀ (f : Flags) (w : World) (db : DB), Call.dbClose db ∉ (exec f w).calls := by
  refine ⟨by decide, by decide, ?_⟩
  intro f w db
  have hs := stop_exec f w
  generalize exec f w = p at hs
  cases hs <;>
    simp [dnsCalls, passwordCalls, openCalls, dbClose_not_mem_livenessCalls,
      dbClose_not_mem_locksCalls, dbClose_not_mem_queriesCalls]

/-! ## Runs that do not crash in `resolveDNS` -/

/-- When the first record of a non-empty answer section is an A record, `resolveDNS`
returns the text of its address. -/
theorem resolveDNS_of_first_answer_A (f : Flags) (w : World) (host addr : String)
    (rest : List RR) (s : State)
    (hx : w.exchange (host ++ ".") f.flagDNS = .ok (RR.A addr :: rest)) :
    (resolveDNS f w host s).1 = Res.ok addr := by
  simp [resolveDNS, hx]

/-- A run with `-v` unset in which the DNS answer, if `-dns` is set and there is one, does
not start with a record other than an A record prints exactly one line `<code> <service> - <text> - <msg>`
ending in a newline, with `code` one of 0, 1, 2 and `text` the entry of `statusMap` at
`code`. -/
theorem one_status_line_of_no_panic (f : Flags) (w : World) (hv : f.flagVersion = false)
    (hA : f.flagDNS ≠ "" → ∀ rrtype rest,
      w.exchange (f.flagHost ++ ".") f.flagDNS ≠ .ok (RR.other rrtype :: rest)) :
    ∃ (code : Nat) (msg : String), code < 3 ∧
      (exec f w).stdout = [toString code ++ " " ++ serviceName f ++ " - " ++
        statusMap.getD code "" ++ " - " ++ msg ++ "\n"] := by
  have hs := stop_exec f w
  generalize exec f w = p at hs
  cases hs with
  | version hv' => rw [hv] at hv'; cases hv'
  | dnsPanic rrtype rest _ hd hx => exact absurd hx (hA hd rrtype rest)
  | dnsError err _ hd hx => exact ⟨2, _, by decide, rfl⟩
  | dnsEmpty _ hd hx => exact ⟨2, _, by decide, rfl⟩
  | passwordFile host err _ hh hf hr => exact ⟨2, _, by decide, rfl⟩
  | connect host password err _ hh hp ho => exact ⟨2, _, by decide, rfl⟩
  | livenessError host password err h hq => exact ⟨2, _, by decide, rfl⟩
  | livenessValue host password value h hq hne => exact ⟨2, _, by decide, rfl⟩
  | locksError host password err h hN hq => exact ⟨2, _, by decide, rfl⟩
  | locksWarn host password k h hN hq hk => exact ⟨1, _, by decide, rfl⟩
  | queriesError host password err h hl hN hq => exact ⟨2, _, by decide, rfl⟩
  | queriesWarn host password k h hl hN hq hk => exact ⟨1, _, by decide, rfl⟩
  | ok host password h hl hq => exact ⟨0, _, by decide, rfl⟩

/-! ## C4, C5 and C10: the unchecked type assertion in `resolveDNS` -/

/-- C10 (fails on the code): for the answer section `[CNAME, A]`, which arrives without
error and is not empty, `resolveDNS` does not return an address: the type assertion
`r.Answer[0].(*dns.A)` panics.  The process ends with exit status 2 after the DNS
exchange. -/
theorem resolveDNS_panics_on_cname :
    (resolveDNS flagsDNS worldCNAME "www.example.org" State.init).1 =
      Res.panic "interface conversion: dns.RR is *dns.CNAME, not *dns.A" ∧
    (exec flagsDNS worldCNAME).calls = [Call.dnsExchange "www.example.org." "10.0.0.53:53"] ∧
    (exec flagsDNS worldCNAME).exitCode = 2 := by
  decide

/-- C5 (fails on the code): the run with `-v` unset whose DNS answer section is
`[CNAME, A]` prints no line at all, not one. -/
theorem no_status_line_on_resolveDNS_panic :
    flagsDNS.flagVersion = false ∧ (exec flagsDNS worldCNAME).stdout = [] := by
  decide

/-- With the answer section `[CNAME, A]` the run does not get past the DNS step. -/
theorem not_resolvedHost_of_cname (host : String) : ¬ ResolvedHost flagsDNS worldCNAME host := by
  rintro (⟨hd, _⟩ | ⟨_, rest, hx⟩)
  · exact absurd hd (by decide)
  · simp [worldCNAME, worldOk] at hx

/-- C4 (fails on the code): the run with `-v` unset whose DNS answer section is
`[CNAME, A]` has no failing step, and no password-file read failure in particular, yet its
exit status is 2, neither 0 nor 1, and it prints no CRIT line (it prints nothing). -/
theorem exit_status_two_without_failing_step :
    flagsDNS.flagVersion = false ∧
    (∀ step, ¬ Fails flagsDNS worldCNAME step) ∧
    (exec flagsDNS worldCNAME).exitCode = 2 ∧
    (exec flagsDNS worldCNAME).exitCode ≠ 0 ∧
    (exec flagsDNS worldCNAME).exitCode ≠ 1 ∧
    ¬ ∃ msg, (exec flagsDNS worldCNAME).stdout =
      ["2 " ++ serviceName flagsDNS ++ " - " ++ "CRIT" ++ " - " ++ msg ++ "\n"] := by
  refine ⟨rfl, ?_, by decide, by decide, by decide, ?_⟩
  · intro step h
    cases h with
    | dnsError err hd hx => simp [worldCNAME, worldOk] at hx
    | dnsEmpty hd hx => simp [worldCNAME, worldOk] at hx
    | passwordFile host err hh hf hr => exact not_resolvedHost_of_cname host hh
    | connect host password err hh hp ho => exact not_resolvedHost_of_cname host hh
    | livenessError host password err h hq => exact not_resolvedHost_of_cname host h.2.1
    | livenessValue host password value h hq hne => exact not_resolvedHost_of_cname host h.2.1
    | locks host password err h hN hq => exact not_resolvedHost_of_cname host h.1.2.1
    | queries host password err h hl hN hq => exact not_resolvedHost_of_cname host h.1.2.1
  · rintro ⟨msg, hm⟩
    have hout : (exec flagsDNS worldCNAME).stdout = [] := by decide
    rw [hout] at hm
    cases hm

/-! ## C8: what enables the threshold checks -/

/-- C8 as stated fails: with `-maxlockage -5` the liveness check passes and the threshold
is not zero, yet the lock query is not executed. -/
theorem negative_lock_age_skips_lock_check :
    LivenessPasses flagsNegative worldOk "db1" "secret" ∧
    ¬ (Executed sqlLocks (exec flagsNegative worldOk) ↔ flagsNegative.flagMaxLockAge ≠ 0) := by
  refine ⟨⟨⟨rfl, Or.inl ⟨rfl, rfl⟩, Or.inl ⟨rfl, rfl⟩, rfl⟩, rfl⟩, ?_⟩
  intro h
  obtain ⟨db, args, hm⟩ := h.mpr (by decide)
  have hcalls : (exec flagsNegative worldOk).calls =
      [Call.sqlOpen "postgres"
        "host=db1 port=5432 dbname=mydb user=monitor password=secret connect_timeout=5",
       Call.queryRow ⟨"postgres",
        "host=db1 port=5432 dbname=mydb user=monitor password=secret connect_timeout=5"⟩
        sqlTest []] := by decide
  rw [hcalls] at hm
  simp at hm
  exact sqlTest_ne_sqlLocks hm.2.1.symm

/-- C8 (amended): when the liveness check passes, the lock query is executed if and only
if `-maxlockage` is greater than zero, and, when the lock step does not end the run, the
query-duration query is executed if and only if `-maxqueryduration` is greater than zero.
A negative threshold disables its check, as zero does. -/
theorem threshold_checks_run_iff_positive (f : Flags) (w : World) (host password : String)
    (hlive : LivenessPasses f w host password) :
    (Executed sqlLocks (exec f w) ↔ f.flagMaxLockAge > 0) ∧
    (LocksPass f w host password →
      (Executed sqlQueries (exec f w) ↔ f.flagMaxQueryDuration > 0)) := by
  have e1 := sqlTest_ne_sqlLocks
  have e2 := sqlTest_ne_sqlQueries
  have e3 := sqlLocks_ne_sqlQueries
  by_cases hN : f.flagMaxLockAge > 0
  · cases hl : w.queryRowInt ⟨"postgres", connStr f host password⟩ sqlLocks
        [fmtD f.flagMaxLockAge ++ " seconds"] with
    | error err =>
      rw [exec_of_stop (Stop.locksError host password err hlive hN hl)]
      refine ⟨by simp [executed_locksCalls, hN, e1.symm], ?_⟩
      rintro (h | ⟨_, k, hk, _⟩)
      · exact absurd hN h
      · rw [hl] at hk
        cases hk
    | ok k =>
      by_cases hk : k > 0
      · rw [exec_of_stop (Stop.locksWarn host password k hlive hN hl hk)]
        refine ⟨by simp [executed_locksCalls, hN, e1.symm], ?_⟩
        rintro (h | ⟨_, k', hk', hnot⟩)
        · exact absurd hN h
        · rw [hl] at hk'
          injection hk' with hk'
          subst hk'
          exact absurd hk hnot
      · have hpass : LocksPass f w host password := Or.inr ⟨hN, k, hl, hk⟩
        by_cases hM : f.flagMaxQueryDuration > 0
        · cases hd : w.queryRowInt ⟨"postgres", connStr f host password⟩ sqlQueries
              [fmtD f.flagMaxQueryDuration ++ " seconds"] with
          | error err =>
            rw [exec_of_stop (Stop.queriesError host password err hlive hpass hM hd)]
            simp only [executed_queriesCalls]
            simp [hN, hM, e1.symm, e2.symm, e3, e3.symm]
          | ok j =>
            by_cases hj : j > 0
            · rw [exec_of_stop (Stop.queriesWarn host password j hlive hpass hM hd hj)]
              simp only [executed_queriesCalls]
              simp [hN, hM, e1.symm, e2.symm, e3, e3.symm]
            · rw [exec_of_stop (Stop.ok host password hlive hpass (Or.inr ⟨hM, j, hd, hj⟩))]
              simp only [executed_queriesCalls]
              simp [hN, hM, e1.symm, e2.symm, e3, e3.symm]
        · rw [exec_of_stop (Stop.ok host password hlive hpass (Or.inl hM))]
          simp only [executed_queriesCalls]
          simp [hN, hM, e1.symm, e2.symm, e3, e3.symm]
  · have hpass : LocksPass f w host password := Or.inl hN
    by_cases hM : f.flagMaxQueryDuration > 0
    · cases hd : w.queryRowInt ⟨"postgres", connStr f host password⟩ sqlQueries
          [fmtD f.flagMaxQueryDuration ++ " seconds"] with
      | error err =>
        rw [exec_of_stop (Stop.queriesError host password err hlive hpass hM hd)]
        simp only [executed_queriesCalls]
        simp [hN, hM, e1.symm, e2.symm, e3, e3.symm]
      | ok j =>
        by_cases hj : j > 0
        · rw [exec_of_stop (Stop.queriesWarn host password j hlive hpass hM hd hj)]
          simp only [executed_queriesCalls]
          simp [hN, hM, e1.symm, e2.symm, e3, e3.symm]
        · rw [exec_of_stop (Stop.ok host password hlive hpass (Or.inr ⟨hM, j, hd, hj⟩))]
          simp only [executed_queriesCalls]
          simp [hN, hM, e1.symm, e2.symm, e3, e3.symm]
    · rw [exec_of_stop (Stop.ok host password hlive hpass (Or.inl hM))]
      simp only [executed_queriesCalls]
      simp [hN, hM, e1.symm, e2.symm, e3, e3.symm]

theorem threshold_checks_run_iff_positive_witness :
    (Executed sqlLocks (exec flagsNegative worldOk) ↔ flagsNegative.flagMaxLockAge > 0) ∧
    (LocksPass flagsNegative worldOk "db1" "secret" →
      (Executed sqlQueries (exec flagsNegative worldOk) ↔
        flagsNegative.flagMaxQueryDuration > 0)) :=
  threshold_checks_run_iff_positive flagsNegative worldOk "db1" "secret"
    ⟨⟨rfl, Or.inl ⟨rfl, rfl⟩, Or.inl ⟨rfl, rfl⟩, rfl⟩, rfl⟩

/-! ## C9: the password in the connection string -/

/-- Every `sql.Open` call of a run that gets past the DNS and password steps with `host`
and `password` has the connection string built from them. -/
theorem sqlOpen_calls_of_loaded (f : Flags) (w : World) (host password : String)
    (hv : f.flagVersion = false) (hh : ResolvedHost f w host)
    (hp : LoadedPassword f w password) (d c : String) :
    Call.sqlOpen d c ∈ (exec f w).calls ↔ d = "postgres" ∧ c = connStr f host password := by
  have hs := stop_exec f w
  generalize exec f w = p at hs
  cases hs with
  | version hv' => rw [hv] at hv'; cases hv'
  | dnsPanic rrtype rest _ hd hx =>
    rcases hh with ⟨hd', _⟩ | ⟨_, rest', hx'⟩
    · exact absurd hd' hd
    · rw [hx] at hx'; cases hx'
  | dnsError err _ hd hx =>
    rcases hh with ⟨hd', _⟩ | ⟨_, rest', hx'⟩
    · exact absurd hd' hd
    · rw [hx] at hx'; cases hx'
  | dnsEmpty _ hd hx =>
    rcases hh with ⟨hd', _⟩ | ⟨_, rest', hx'⟩
    · exact absurd hd' hd
    · rw [hx] at hx'; cases hx'
  | passwordFile host' err _ hh' hf hr =>
    rcases hp with ⟨hf', _⟩ | ⟨_, hr'⟩
    · exact absurd hf' hf
    · rw [hr] at hr'; cases hr'
  | connect host' password' err _ hh' hp' ho =>
    obtain rfl := resolvedHost_unique hh hh'
    obtain rfl := loadedPassword_unique hp hp'
    simp [sqlOpen_mem_openCalls]
  | livenessError host' password' err h hq =>
    obtain rfl := resolvedHost_unique hh h.2.1
    obtain rfl := loadedPassword_unique hp h.2.2.1
    simp [sqlOpen_mem_livenessCalls]
  | livenessValue host' password' value h hq hne =>
    obtain rfl := resolvedHost_unique hh h.2.1
    obtain rfl := loadedPassword_unique hp h.2.2.1
    simp [sqlOpen_mem_livenessCalls]
  | locksError host' password' err h hN hq =>
    obtain rfl := resolvedHost_unique hh h.1.2.1
    obtain rfl := loadedPassword_unique hp h.1.2.2.1
    simp [sqlOpen_mem_livenessCalls, sqlOpen_not_mem_locksCalls]
  | locksWarn host' password' k h hN hq hk =>
    obtain rfl := resolvedHost_unique hh h.1.2.1
    obtain rfl := loadedPassword_unique hp h.1.2.2.1
    simp [sqlOpen_mem_livenessCalls, sqlOpen_not_mem_locksCalls]
  | queriesError host' password' err h hl hN hq =>
    obtain rfl := resolvedHost_unique hh h.1.2.1
    obtain rfl := loadedPassword_unique hp h.1.2.2.1
    simp [sqlOpen_mem_livenessCalls, sqlOpen_not_mem_locksCalls, sqlOpen_not_mem_queriesCalls]
  | queriesWarn host' password' k h hl hN hq hk =>
    obtain rfl := resolvedHost_unique hh h.1.2.1
    obtain rfl := loadedPassword_unique hp h.1.2.2.1
    simp [sqlOpen_mem_livenessCalls, sqlOpen_not_mem_locksCalls, sqlOpen_not_mem_queriesCalls]
  | ok host' password' h hl hq =>
    obtain rfl := resolvedHost_unique hh h.1.2.1
    obtain rfl := loadedPassword_unique hp h.1.2.2.1
    simp [sqlOpen_mem_livenessCalls, sqlOpen_not_mem_locksCalls, sqlOpen_not_mem_queriesCalls]

/-- C9: in a run that gets past the DNS step with `host`: if `-passwordfile` is set and the
file is read with content `content`, the connection string passed to `sql.Open` carries
exactly `content` after `password=`, whatever `-password` is; if `-passwordfile` is empty,
it carries the `-password` value. -/
theorem password_file_content_is_the_password (f : Flags) (w : World) (host : String)
    (hv : f.flagVersion = false) (hh : ResolvedHost f w host) :
    (∀ content, f.flagPasswordFile ≠ "" → w.readFile f.flagPasswordFile = .ok content →
      ∀ d c, Call.sqlOpen d c ∈ (exec f w).calls ↔
        d = "postgres" ∧ c = "host=" ++ host ++ " port=" ++ fmtD f.flagPort ++ " dbname=" ++
          f.flagDatabase ++ " user=" ++ f.flagUser ++ " password=" ++ content ++
          " connect_timeout=" ++ fmtD f.flagConnTimeout) ∧
    (f.flagPasswordFile = "" →
      ∀ d c, Call.sqlOpen d c ∈ (exec f w).calls ↔
        d = "postgres" ∧ c = "host=" ++ host ++ " port=" ++ fmtD f.flagPort ++ " dbname=" ++
          f.flagDatabase ++ " user=" ++ f.flagUser ++ " password=" ++ f.flagPassword ++
          " connect_timeout=" ++ fmtD f.flagConnTimeout) := by
  constructor
  · intro content hf hr d c
    exact sqlOpen_calls_of_loaded f w host content hv hh (Or.inr ⟨hf, hr⟩) d c
  · intro hf d c
    exact sqlOpen_calls_of_loaded f w host f.flagPassword hv hh (Or.inl ⟨hf, rfl⟩) d c

theorem password_file_content_is_the_password_witness :
    Call.sqlOpen "postgres"
        "host=db1 port=5432 dbname=mydb user=monitor password=s3cret \n connect_timeout=5" ∈
      (exec flagsPasswordFile worldOk).calls :=
  ((password_file_content_is_the_password flagsPasswordFile worldOk "db1" rfl
    (Or.inl ⟨rfl, rfl⟩)).1 "s3cret \n" (by decide) rfl "postgres"
    "host=db1 port=5432 dbname=mydb user=monitor password=s3cret \n connect_timeout=5").mpr
    ⟨rfl, rfl⟩

end CheckPostgres
